import Mathlib

/-!
Verification of the kusion-module-framework request/response adapter
(`pkg/module/module.go`, plus an earlier variant of the same file).

The adapter sits between an untyped wire message (protobuf fields whose
configuration layers are opaque byte blobs) and the typed module API.
The YAML codec, the five typed layer schemas (Accessory, GenericConfig,
SecretStore, ...), the resource and patcher types, and the module business
logic are external to the repository, so the embedding abstracts them as
type parameters together with explicit (de)serialization functions gathered
in a `Codecs` record.  Everything that IS the code of the repository —
the nil checks, the decode order, the error tagging, the assembly of the
result, the diagnostic re-marshal, the response encoding loop and the
empty-response normalization — is translated statement by statement.

Go `[]byte` fields of the proto message are `Option Bytes`: `none` is a
nil slice (layer absent), `some b` a present blob.  Go `error` results
become `Except`; the distinct `fmt.Errorf` wrappings become constructors
of an error inductive carrying the wrapped underlying error, so that
which layer an error identifies is visible in the embedding.
Logging (`log.Infof`) has no effect on control flow or data and is erased;
note that the `req.String()` call made before the nil-request check is a
generated-protobuf method that is safe on a nil message.
-/

/-- Opaque byte sequences crossing the wire boundary (Go `[]byte`). -/
abbrev Bytes := List Nat

/-- Wire request of the current variant (`proto.GeneratorRequest`):
three identifier strings and five independently optional opaque blobs. -/
structure ProtoGeneratorRequest where
  project : String
  stack : String
  app : String
  workload : Option Bytes
  devConfig : Option Bytes
  platformConfig : Option Bytes
  context : Option Bytes
  secretStore : Option Bytes
  deriving DecidableEq, Repr

/-- Typed request of the current variant (`GeneratorRequest` in module.go).
`W D P C S` stand for the external types `v1.Accessory` (workload),
`v1.Accessory` (dev config), `v1.GenericConfig` (platform config),
`v1.GenericConfig` (context) and `v1.SecretStore`. -/
structure GeneratorRequest (W D P C S : Type) where
  project : String
  stack : String
  app : String
  workload : W
  devConfig : D
  platformConfig : P
  context : C
  secretStore : S
  deriving DecidableEq, Repr

/-- Typed module result (`GeneratorResponse` in module.go): an ordered list
of resource descriptors and an optional patcher. -/
structure GeneratorResponse (R Pa : Type) where
  resources : List R
  patcher : Option Pa
  deriving DecidableEq, Repr

/-- Wire response (`proto.GeneratorResponse`): every resource re-encoded to
bytes, in order, plus the patcher encoded to bytes when present
(a nil `[]byte` patcher field is `none`). -/
structure ProtoGeneratorResponse where
  resources : List Bytes
  patcher : Option Bytes
  deriving DecidableEq, Repr

/-- The external YAML codec and the zero values of the five external layer
types, as used by `NewGeneratorRequest`.  `w0 .. s0` are the Go zero values
produced by the `var` declarations; `decWorkload` is `yamlv2.Unmarshal`
into a `v1.Accessory`, the other four decoders are `yaml.Unmarshal` into
their layer types, and `marshalRequest` is the diagnostic `yaml.Marshal`
of the assembled request.  `ε` is the opaque error type of the codec. -/
structure Codecs (ε W D P C S : Type) where
  w0 : W
  d0 : D
  p0 : P
  c0 : C
  s0 : S
  decWorkload : Bytes → Except ε W
  decDevConfig : Bytes → Except ε D
  decPlatformConfig : Bytes → Except ε P
  decContext : Bytes → Except ε C
  decSecretStore : Bytes → Except ε S
  marshalRequest : GeneratorRequest W D P C S → Except ε Bytes

/-- Errors of `NewGeneratorRequest`, one constructor per `return nil, err`
site, carrying the wrapped underlying codec error. -/
inductive NGRError (ε : Type) where
  | emptyRequest
  | unmarshalWorkload (e : ε)
  | unmarshalDevConfig (e : ε)
  | unmarshalPlatformConfig (e : ε)
  | unmarshalContext (e : ε)
  | unmarshalSecretStore (e : ε)
  | marshalRequest (e : ε)
  deriving DecidableEq, Repr

/-- One optional-layer decode step of `NewGeneratorRequest`: an absent blob
leaves the `var` zero value in place, a present blob is decoded, and a
decode failure is wrapped with the tag naming the layer. -/
def decodeLayer {ε V E : Type} (dec : Bytes → Except ε V) (zero : V)
    (tag : ε → E) : Option Bytes → Except E V
  | none => .ok zero
  | some b =>
    match dec b with
    | .error e => .error (tag e)
    | .ok v => .ok v

/-- The final lines of `NewGeneratorRequest`: the assembled request is
re-marshalled for diagnostic logging; a failing `yaml.Marshal` is
returned as an error, a succeeding one returns the assembled request
(the marshalled bytes go only to the log, which is erased). -/
def finishRequest {ε W D P C S : Type} (cs : Codecs ε W D P C S)
    (result : GeneratorRequest W D P C S) :
    Except (NGRError ε) (GeneratorRequest W D P C S) :=
  match cs.marshalRequest result with
  | .error e => .error (.marshalRequest e)
  | .ok _out => .ok result

/-- `NewGeneratorRequest` of the current variant (module.go, lines 89-149).
The input is `Option ProtoGeneratorRequest`: `none` is a nil request
pointer, rejected by the `req == nil` check.  The five layers are decoded
in source order (workload, devConfig, platformConfig, context,
secretStore); the Go early-return on the first failure is the `Except`
bind.  After assembly the request is passed to the diagnostic re-marshal
tail `finishRequest`. -/
def NewGeneratorRequest {ε W D P C S : Type} (cs : Codecs ε W D P C S)
    (req : Option ProtoGeneratorRequest) :
    Except (NGRError ε) (GeneratorRequest W D P C S) :=
  match req with
  | none => .error .emptyRequest
  | some r =>
    (decodeLayer cs.decWorkload cs.w0 NGRError.unmarshalWorkload r.workload).bind fun w =>
    (decodeLayer cs.decDevConfig cs.d0 NGRError.unmarshalDevConfig r.devConfig).bind fun dc =>
    (decodeLayer cs.decPlatformConfig cs.p0 NGRError.unmarshalPlatformConfig r.platformConfig).bind fun pc =>
    (decodeLayer cs.decContext cs.c0 NGRError.unmarshalContext r.context).bind fun cx =>
    (decodeLayer cs.decSecretStore cs.s0 NGRError.unmarshalSecretStore r.secretStore).bind fun ss =>
    finishRequest cs
      { project := r.project, stack := r.stack, app := r.app,
        workload := w, devConfig := dc, platformConfig := pc,
        context := cx, secretStore := ss }

/-- `EmptyResponse` (module.go): the legal but empty wire response, an
explicit value with no resources and a nil patcher. -/
def EmptyResponse : ProtoGeneratorResponse :=
  { resources := [], patcher := none }

/-- Errors of `FrameworkModuleWrapper.Generate`: a request-assembly error
is propagated unchanged, a module error (`μ`, opaque) is propagated
unchanged, and the two marshal failure sites wrap the codec error (the
resource one also formats the offending resource into the message). -/
inductive GenerateError (ε μ R : Type) where
  | requestError (e : NGRError ε)
  | moduleError (e : μ)
  | marshalResourceFailed (e : ε) (res : R)
  | marshalPatcherFailed (e : ε)
  deriving DecidableEq, Repr

/-- The response-side external codec: `yaml.Marshal` of one resource
descriptor and of the patcher. -/
structure RespCodecs (ε R Pa : Type) where
  encResource : R → Except ε Bytes
  encPatcher : Pa → Except ε Bytes

/-- The resource-encoding loop of `Generate`: each descriptor is marshalled
independently and appended in order; the first failure aborts with the
wrapped error naming that resource. -/
def marshalResources {ε μ R : Type} (encResource : R → Except ε Bytes) :
    List R → Except (GenerateError ε μ R) (List Bytes)
  | [] => .ok []
  | res :: rest =>
    match encResource res with
    | .error e => .error (.marshalResourceFailed e res)
    | .ok out =>
      match marshalResources encResource rest with
      | .error e => .error e
      | .ok bs => .ok (out :: bs)

/-- The wrapped dev-centric module (`FrameworkModuleWrapper`).  `Module` is
the business-logic generation function; the Go version also receives the
cancellation context, which the adapter only passes through, so it is
pre-applied here.  A Go `nil` response pointer is `Option`: `.ok none`. -/
structure FrameworkModuleWrapper (μ W D P C S R Pa : Type) where
  Module : GeneratorRequest W D P C S → Except μ (Option (GeneratorResponse R Pa))

/-- `FrameworkModuleWrapper.Generate` (module.go, lines 26-62): assemble the
typed request (propagating its error), invoke the module (propagating its
error), normalize a nil module result to `EmptyResponse`, otherwise encode
every resource in order and then the patcher when present. -/
def FrameworkModuleWrapper.Generate {ε μ W D P C S R Pa : Type}
    (f : FrameworkModuleWrapper μ W D P C S R Pa)
    (cs : Codecs ε W D P C S) (rcs : RespCodecs ε R Pa)
    (req : Option ProtoGeneratorRequest) :
    Except (GenerateError ε μ R) ProtoGeneratorResponse :=
  match NewGeneratorRequest cs req with
  | .error e => .error (.requestError e)
  | .ok request =>
    match f.Module request with
    | .error e => .error (.moduleError e)
    | .ok none => .ok EmptyResponse
    | .ok (some response) =>
      match marshalResources rcs.encResource response.resources with
      | .error e => .error e
      | .ok resources =>
        match response.patcher with
        | none => .ok { resources := resources, patcher := none }
        | some pa =>
          match rcs.encPatcher pa with
          | .error e => .error (.marshalPatcherFailed e)
          | .ok pb => .ok { resources := resources, patcher := some pb }

/-!
The earlier variant of the same file (the second source file of the
repository).  Its proto request has no context or secretStore layer but an
additional runtimeConfig blob; its typed request has a pointer-typed
Workload (always freshly allocated before decoding, hence plain `W` here)
and a pointer-typed `RuntimeConfig` (`Option RC`).  Its
`NewGeneratorRequest` performs no nil check on the request itself — it
reads the fields of `req` unconditionally — so the embedding takes the
request value directly, covering exactly the non-nil inputs on which the
Go function runs to a `return`.  It treats a nil workload blob as an
error, and it declares `var rc *v1.RuntimeConfigs` (a nil pointer) and
passes that nil pointer by value to `yaml.Unmarshal`: whatever that call
does, it cannot change the local `rc`, so the decode outcome carries no
value (`Unit`) and `rc` stays nil on every path that reaches the result.
-/

namespace Old

/-- Wire request of the earlier variant (`proto.GeneratorRequest`). -/
structure ProtoGeneratorRequest where
  project : String
  stack : String
  app : String
  workload : Option Bytes
  devModuleConfig : Option Bytes
  platformModuleConfig : Option Bytes
  runtimeConfig : Option Bytes
  deriving DecidableEq, Repr

/-- Typed request of the earlier variant.  `W` is `workload.Workload`
(behind an always-non-nil pointer on the success path), `D` is
`v1.Accessory`, `P` is `v1.GenericConfig`, `RC` is `v1.RuntimeConfigs`
behind a possibly-nil pointer. -/
structure GeneratorRequest (W D P RC : Type) where
  project : String
  stack : String
  app : String
  workload : W
  devModuleConfig : D
  platformModuleConfig : P
  runtimeConfig : Option RC
  deriving DecidableEq, Repr

/-- External codec of the earlier variant.  `decRuntimeConfigNilDest`
models `yaml.Unmarshal(req.RuntimeConfig, rc)` with `rc` the nil pointer:
Go passes the pointer by value, so the call can fail or succeed but no
decoded value can reach the caller. -/
structure Codecs (ε W D P RC : Type) where
  d0 : D
  p0 : P
  decWorkload : Bytes → Except ε W
  decDevModuleConfig : Bytes → Except ε D
  decPlatformModuleConfig : Bytes → Except ε P
  decRuntimeConfigNilDest : Bytes → Except ε Unit
  marshalRequest : GeneratorRequest W D P RC → Except ε Bytes

/-- Errors of the earlier `NewGeneratorRequest`, one constructor per
`return nil, err` site. -/
inductive Error (ε : Type) where
  | workloadNil
  | unmarshalWorkload (e : ε)
  | unmarshalDevModuleConfig (e : ε)
  | unmarshalPlatformModuleConfig (e : ε)
  | unmarshalRuntimeConfig (e : ε)
  | marshalRequest (e : ε)
  deriving DecidableEq, Repr

/-- The required-workload step of the earlier variant: a nil workload blob
is rejected as a missing required field; a present one is decoded into the
freshly allocated workload value, wrapping a decode failure. -/
def decodeWorkload {ε W : Type} (dec : Bytes → Except ε W) :
    Option Bytes → Except (Error ε) W
  | none => .error .workloadNil
  | some wb =>
    match dec wb with
    | .error e => .error (.unmarshalWorkload e)
    | .ok w => .ok w

/-- The runtime-config step of the earlier variant.  The destination of
the unmarshal is the local `var rc *v1.RuntimeConfigs`, a nil pointer
passed by value, so a decode failure aborts and a decode success still
leaves `rc` nil: the step can never produce a value. -/
def decodeRuntimeConfig {ε RC : Type} (dec : Bytes → Except ε Unit)
    (rb? : Option Bytes) : Except (Error ε) (Option RC) :=
  match rb? with
  | none => .ok none
  | some rb =>
    match dec rb with
    | .error e => .error (.unmarshalRuntimeConfig e)
    | .ok _ => .ok none

/-- The diagnostic re-marshal tail of the earlier `NewGeneratorRequest`,
identical in shape to the current one. -/
def finishRequest {ε W D P RC : Type} (cs : Codecs ε W D P RC)
    (result : GeneratorRequest W D P RC) :
    Except (Error ε) (GeneratorRequest W D P RC) :=
  match cs.marshalRequest result with
  | .error e => .error (.marshalRequest e)
  | .ok _out => .ok result

/-- `NewGeneratorRequest` of the earlier variant (part of the unnamed
source file, lines 74-123): the workload blob is required; dev and
platform configs decode like the current variant; the runtime config
blob, when present, is decoded into the nil destination pointer; the
assembled request is re-marshalled for diagnostics, a failure of which
is an error.  The Go early-return on the first failure is the `Except`
bind. -/
def NewGeneratorRequest {ε W D P RC : Type} (cs : Codecs ε W D P RC)
    (req : ProtoGeneratorRequest) :
    Except (Error ε) (GeneratorRequest W D P RC) :=
  (decodeWorkload cs.decWorkload req.workload).bind fun w =>
  (decodeLayer cs.decDevModuleConfig cs.d0 Error.unmarshalDevModuleConfig req.devModuleConfig).bind fun dc =>
  (decodeLayer cs.decPlatformModuleConfig cs.p0 Error.unmarshalPlatformModuleConfig req.platformModuleConfig).bind fun pc =>
  (decodeRuntimeConfig cs.decRuntimeConfigNilDest req.runtimeConfig).bind fun rc =>
  finishRequest cs
    { project := req.project, stack := req.stack, app := req.app,
      workload := w, devModuleConfig := dc,
      platformModuleConfig := pc, runtimeConfig := rc }

end Old

/-!  Helper lemmas about `Except.bind`, the layer decode steps and the
encoding loop. -/

@[simp] theorem except_ok_bind {ε α β : Type} (a : α) (f : α → Except ε β) :
    (Except.ok a : Except ε α).bind f = f a := rfl

@[simp] theorem except_error_bind {ε α β : Type} (e : ε) (f : α → Except ε β) :
    (Except.error e : Except ε α).bind f = .error e := rfl

theorem except_bind_ok {ε α β : Type} {x : Except ε α} {f : α → Except ε β}
    {b : β} (h : x.bind f = .ok b) : ∃ a, x = .ok a ∧ f a = .ok b := by
  cases x with
  | error e => cases h
  | ok a => exact ⟨a, rfl, h⟩

theorem finishRequest_ok_inv {ε W D P C S : Type} {cs : Codecs ε W D P C S}
    {result gr : GeneratorRequest W D P C S}
    (h : finishRequest cs result = .ok gr) : gr = result := by
  unfold finishRequest at h
  cases hm : cs.marshalRequest result with
  | error e => rw [hm] at h; cases h
  | ok out => rw [hm] at h; exact (Except.ok.inj h).symm

theorem old_finishRequest_ok_inv {ε W D P RC : Type} {cs : Old.Codecs ε W D P RC}
    {result gr : Old.GeneratorRequest W D P RC}
    (h : Old.finishRequest cs result = .ok gr) : gr = result := by
  unfold Old.finishRequest at h
  cases hm : cs.marshalRequest result with
  | error e => rw [hm] at h; cases h
  | ok out => rw [hm] at h; exact (Except.ok.inj h).symm

theorem Old.decodeRuntimeConfig_ok {ε RC : Type} {dec : Bytes → Except ε Unit}
    {rb? : Option Bytes} {rc : Option RC}
    (h : Old.decodeRuntimeConfig dec rb? = .ok rc) : rc = none := by
  cases rb? with
  | none => exact (Except.ok.inj h).symm
  | some rb =>
    cases hd : dec rb with
    | error e => simp [Old.decodeRuntimeConfig, hd] at h
    | ok u => simp [Old.decodeRuntimeConfig, hd] at h; exact h.symm

/-- A present-or-absent layer decodes cleanly: absent, or present with a
successful decode. -/
def layerOk {ε V : Type} (dec : Bytes → Except ε V) (b? : Option Bytes) : Prop :=
  ∀ b, b? = some b → ∃ v, dec b = .ok v

theorem decodeLayer_none {ε V E : Type} (dec : Bytes → Except ε V) (zero : V)
    (tag : ε → E) : decodeLayer dec zero tag none = .ok zero := rfl

theorem decodeLayer_error {ε V E : Type} {dec : Bytes → Except ε V} {zero : V}
    {tag : ε → E} {b : Bytes} {e : ε} (h : dec b = .error e) :
    decodeLayer dec zero tag (some b) = .error (tag e) := by
  simp [decodeLayer, h]

theorem decodeLayer_ok_of_layerOk {ε V E : Type} {dec : Bytes → Except ε V}
    (zero : V) (tag : ε → E) {b? : Option Bytes} (h : layerOk dec b?) :
    ∃ v, decodeLayer dec zero tag b? = .ok v := by
  cases b? with
  | none => exact ⟨zero, rfl⟩
  | some b =>
    obtain ⟨v, hv⟩ := h b rfl
    exact ⟨v, by simp [decodeLayer, hv]⟩

theorem marshalResources_ok_of_all_ok {ε μ R : Type}
    {encResource : R → Except ε Bytes} :
    ∀ {rs : List R}, (∀ r ∈ rs, ∃ b, encResource r = .ok b) →
      ∃ bs, marshalResources (μ := μ) encResource rs = .ok bs := by
  intro rs
  induction rs with
  | nil => exact fun _ => ⟨[], rfl⟩
  | cons res rest ih =>
    intro h
    obtain ⟨b, hb⟩ := h res (List.mem_cons_self res rest)
    obtain ⟨bs, hbs⟩ := ih fun r hr => h r (List.mem_cons_of_mem res hr)
    exact ⟨b :: bs, by simp [marshalResources, hb, hbs]⟩

theorem marshalResources_spec {ε μ R : Type}
    {encResource : R → Except ε Bytes} :
    ∀ {rs : List R} {bs : List Bytes},
      marshalResources (μ := μ) encResource rs = .ok bs →
      bs.length = rs.length ∧
        ∀ i (hi : i < rs.length) (hi2 : i < bs.length),
          encResource (rs.get ⟨i, hi⟩) = .ok (bs.get ⟨i, hi2⟩) := by
  intro rs
  induction rs with
  | nil =>
    intro bs h
    simp [marshalResources] at h
    subst h
    exact ⟨rfl, fun i hi => absurd hi (Nat.not_lt_zero i)⟩
  | cons res rest ih =>
    intro bs h
    simp only [marshalResources] at h
    cases henc : encResource res with
    | error e => rw [henc] at h; cases h
    | ok out =>
      rw [henc] at h
      cases hrest : marshalResources (μ := μ) encResource rest with
      | error e => rw [hrest] at h; cases h
      | ok bs2 =>
        rw [hrest] at h
        cases h
        obtain ⟨hlen, hpt⟩ := ih hrest
        refine ⟨by simp [hlen], ?_⟩
        intro i hi hi2
        cases i with
        | zero => simpa using henc
        | succ j =>
          exact hpt j (Nat.lt_of_succ_lt_succ hi) (Nat.lt_of_succ_lt_succ hi2)

/-- A tagged layer-decode error always carries the tag of its own layer. -/
theorem decodeLayer_error_shape {ε V E : Type} {dec : Bytes → Except ε V}
    {zero : V} {tag : ε → E} {b? : Option Bytes} {err : E}
    (h : decodeLayer dec zero tag b? = .error err) :
    ∃ b e, b? = some b ∧ dec b = .error e ∧ err = tag e := by
  cases b? with
  | none => cases h
  | some b =>
    cases hd : dec b with
    | error e =>
      refine ⟨b, e, rfl, hd, ?_⟩
      rw [decodeLayer_error hd] at h
      exact (Except.error.inj h).symm
    | ok v => rw [show decodeLayer dec zero tag (some b) = .ok v by simp [decodeLayer, hd]] at h; cases h

theorem marshalResources_error_of_mem_error {ε μ R : Type}
    {encResource : R → Except ε Bytes} :
    ∀ {rs : List R}, (∃ r ∈ rs, ∃ e, encResource r = .error e) →
      ∃ e2, marshalResources (μ := μ) encResource rs = .error e2 := by
  intro rs
  induction rs with
  | nil => rintro ⟨r, hr, -⟩; cases hr
  | cons res rest ih =>
    rintro ⟨r, hr, e, he⟩
    rcases List.mem_cons.mp hr with heq | hmem
    · subst heq
      exact ⟨.marshalResourceFailed e r, by simp [marshalResources, he]⟩
    · cases henc : encResource res with
      | error e1 =>
        exact ⟨.marshalResourceFailed e1 res, by simp [marshalResources, henc]⟩
      | ok out =>
        obtain ⟨e2, he2⟩ := ih ⟨r, hmem, e, he⟩
        exact ⟨e2, by simp [marshalResources, henc, he2]⟩

/-!  Concrete instantiations of the external codec parameters, used by the
witness theorems to evaluate the adapter on explicit inputs.  The layer
types are all `Unit` (the embedding is parametric in them), resources are
`Nat`, and the codec functions are simple total functions. -/

/-- A codec where every layer decodes and the diagnostic marshal succeeds. -/
def csUnit : Codecs Unit Unit Unit Unit Unit Unit :=
  { w0 := (), d0 := (), p0 := (), c0 := (), s0 := ()
    decWorkload := fun _ => .ok ()
    decDevConfig := fun _ => .ok ()
    decPlatformConfig := fun _ => .ok ()
    decContext := fun _ => .ok ()
    decSecretStore := fun _ => .ok ()
    marshalRequest := fun _ => .ok [] }

/-- Same codec, but the diagnostic re-marshal of the assembled request fails. -/
def csUnitMarshalFail : Codecs Unit Unit Unit Unit Unit Unit :=
  { csUnit with marshalRequest := fun _ => .error () }

/-- Same codec, but every present layer blob is malformed. -/
def csUnitDecFail : Codecs Unit Unit Unit Unit Unit Unit :=
  { csUnit with
    decWorkload := fun _ => .error ()
    decDevConfig := fun _ => .error ()
    decPlatformConfig := fun _ => .error ()
    decContext := fun _ => .error ()
    decSecretStore := fun _ => .error () }

/-- A wire request with identifiers only: all five layer blobs absent. -/
def reqAllAbsent : ProtoGeneratorRequest :=
  { project := "p", stack := "s", app := "a", workload := none,
    devConfig := none, platformConfig := none, context := none,
    secretStore := none }

/-- The typed request assembled from `reqAllAbsent` under `csUnit`. -/
def grZero : GeneratorRequest Unit Unit Unit Unit Unit :=
  { project := "p", stack := "s", app := "a", workload := (), devConfig := (),
    platformConfig := (), context := (), secretStore := () }

/-- Resource encoder mapping resource `n` to the singleton blob `[n]`. -/
def rcsNat : RespCodecs Unit Nat Unit :=
  { encResource := fun n => .ok [n], encPatcher := fun _ => .ok [9] }

/-- A module whose generation function returns a nil response. -/
def fNone : FrameworkModuleWrapper Unit Unit Unit Unit Unit Unit Nat Unit :=
  { Module := fun _ => .ok none }

/-- Claim C1 counterexample: under a codec whose diagnostic re-marshal
fails, a wire request whose five layers all decode successfully (they are
all absent, hence decode to zero values) makes `NewGeneratorRequest`
return an error — the assembled request is not returned, contradicting
the claim that a diagnostic re-serialization failure never turns the call
into an error. -/
theorem claim_C1_counterexample :
    NewGeneratorRequest csUnitMarshalFail (some reqAllAbsent) =
      .error (.marshalRequest ()) := rfl

/-- Claim C1 (amended): for every wire request whose five layers all
decode successfully, `NewGeneratorRequest` returns the assembled request
when the diagnostic re-marshal also succeeds; when the diagnostic
re-marshal fails, the call returns an error wrapping that marshal failure
instead of the assembled request. -/
theorem claim_C1_diagnostic_marshal_behavior {ε W D P C S : Type}
    (cs : Codecs ε W D P C S) (r : ProtoGeneratorRequest)
    (w : W) (dc : D) (pc : P) (cx : C) (ss : S)
    (hw : decodeLayer cs.decWorkload cs.w0 NGRError.unmarshalWorkload r.workload = .ok w)
    (hd : decodeLayer cs.decDevConfig cs.d0 NGRError.unmarshalDevConfig r.devConfig = .ok dc)
    (hp : decodeLayer cs.decPlatformConfig cs.p0 NGRError.unmarshalPlatformConfig r.platformConfig = .ok pc)
    (hc : decodeLayer cs.decContext cs.c0 NGRError.unmarshalContext r.context = .ok cx)
    (hs : decodeLayer cs.decSecretStore cs.s0 NGRError.unmarshalSecretStore r.secretStore = .ok ss) :
    (∀ out, cs.marshalRequest
        { project := r.project, stack := r.stack, app := r.app, workload := w,
          devConfig := dc, platformConfig := pc, context := cx, secretStore := ss } = .ok out →
      NewGeneratorRequest cs (some r) =
        .ok { project := r.project, stack := r.stack, app := r.app, workload := w,
              devConfig := dc, platformConfig := pc, context := cx, secretStore := ss }) ∧
    (∀ e, cs.marshalRequest
        { project := r.project, stack := r.stack, app := r.app, workload := w,
          devConfig := dc, platformConfig := pc, context := cx, secretStore := ss } = .error e →
      NewGeneratorRequest cs (some r) = .error (.marshalRequest e)) := by
  constructor <;> intro x hx <;>
    simp [NewGeneratorRequest, finishRequest, hw, hd, hp, hc, hs, hx]

/-- Claim C1 witness: the amended statement evaluated at a concrete
request, once with a succeeding and once with a failing diagnostic
marshal. -/
theorem claim_C1_witness :
    NewGeneratorRequest csUnit (some reqAllAbsent) = .ok grZero ∧
    NewGeneratorRequest csUnitMarshalFail (some reqAllAbsent) =
      .error (.marshalRequest ()) :=
  ⟨(claim_C1_diagnostic_marshal_behavior csUnit reqAllAbsent () () () () ()
      rfl rfl rfl rfl rfl).1 [] rfl,
   (claim_C1_diagnostic_marshal_behavior csUnitMarshalFail reqAllAbsent () () () () ()
      rfl rfl rfl rfl rfl).2 () rfl⟩

/-- Claim C3: a nil wire request is rejected by `NewGeneratorRequest` with
the validation error, and `Generate` then fails with that same propagated
error for every possible module — the generation function is never
invoked (the result does not depend on it), and the call returns an error
rather than crashing. -/
theorem claim_C3_nil_request_rejected {ε μ W D P C S R Pa : Type}
    (cs : Codecs ε W D P C S) (rcs : RespCodecs ε R Pa) :
    NewGeneratorRequest cs (none : Option ProtoGeneratorRequest) =
      .error .emptyRequest ∧
    ∀ f : FrameworkModuleWrapper μ W D P C S R Pa,
      f.Generate cs rcs none = .error (.requestError .emptyRequest) :=
  ⟨rfl, fun _ => rfl⟩

/-- Claim C4: whenever the request assembles and the module generation
function returns a nil result, `Generate` returns exactly the explicit
`EmptyResponse` — an empty resource sequence and an absent patcher —
with no error, never a nil wire response. -/
theorem claim_C4_nil_result_empty_response {ε μ W D P C S R Pa : Type}
    (f : FrameworkModuleWrapper μ W D P C S R Pa)
    (cs : Codecs ε W D P C S) (rcs : RespCodecs ε R Pa)
    (req : Option ProtoGeneratorRequest) (gr : GeneratorRequest W D P C S)
    (h1 : NewGeneratorRequest cs req = .ok gr)
    (h2 : f.Module gr = .ok none) :
    f.Generate cs rcs req = .ok EmptyResponse ∧
      EmptyResponse.resources = [] ∧ EmptyResponse.patcher = none := by
  refine ⟨?_, rfl, rfl⟩
  simp [FrameworkModuleWrapper.Generate, h1, h2]

/-- Claim C4 witness: a module returning a nil result on a concrete
request yields the explicit empty wire response. -/
theorem claim_C4_witness :
    FrameworkModuleWrapper.Generate fNone csUnit rcsNat (some reqAllAbsent) =
      .ok EmptyResponse ∧
    EmptyResponse.resources = [] ∧ EmptyResponse.patcher = none :=
  claim_C4_nil_result_empty_response fNone csUnit rcsNat (some reqAllAbsent)
    grZero rfl rfl

/-- Claim C9: a non-nil wire request whose five optional layer blobs are
all absent assembles without error — given that the external diagnostic
marshal succeeds on the assembled value, which the real YAML encoder does
on zero-valued layers — and the result keeps the three identifier strings
of the wire request and has every layer equal to the zero value of its
type. -/
theorem claim_C9_all_absent_assembles_to_zero {ε W D P C S : Type}
    (cs : Codecs ε W D P C S) (r : ProtoGeneratorRequest)
    (hw : r.workload = none) (hd : r.devConfig = none)
    (hp : r.platformConfig = none) (hc : r.context = none)
    (hs : r.secretStore = none)
    (hm : ∃ out, cs.marshalRequest
        { project := r.project, stack := r.stack, app := r.app,
          workload := cs.w0, devConfig := cs.d0, platformConfig := cs.p0,
          context := cs.c0, secretStore := cs.s0 } = .ok out) :
    NewGeneratorRequest cs (some r) =
      .ok { project := r.project, stack := r.stack, app := r.app,
            workload := cs.w0, devConfig := cs.d0, platformConfig := cs.p0,
            context := cs.c0, secretStore := cs.s0 } := by
  obtain ⟨out, hout⟩ := hm
  simp [NewGeneratorRequest, finishRequest, hw, hd, hp, hc, hs, decodeLayer, hout]

/-- Claim C9 witness: the all-absent request under the concrete codec. -/
theorem claim_C9_witness :
    NewGeneratorRequest csUnit (some reqAllAbsent) = .ok grZero :=
  claim_C9_all_absent_assembles_to_zero csUnit reqAllAbsent
    rfl rfl rfl rfl rfl ⟨[], rfl⟩

/-- A codec for the earlier variant in which every decode and the marshal
succeed; the nil-destination runtime-config decode also reports success. -/
def csOldUnit : Old.Codecs Unit Unit Unit Unit Unit :=
  { d0 := (), p0 := ()
    decWorkload := fun _ => .ok ()
    decDevModuleConfig := fun _ => .ok ()
    decPlatformModuleConfig := fun _ => .ok ()
    decRuntimeConfigNilDest := fun _ => .ok ()
    marshalRequest := fun _ => .ok [] }

/-- An earlier-variant wire request with a present workload blob and a
present, well-formed runtime-config blob. -/
def reqOldRuntime : Old.ProtoGeneratorRequest :=
  { project := "p", stack := "s", app := "a", workload := some [0],
    devModuleConfig := none, platformModuleConfig := none,
    runtimeConfig := some [2] }

/-- The typed request the earlier variant assembles from `reqOldRuntime`:
its runtime config is nil although the blob was present and well-formed. -/
def grOldRuntime : Old.GeneratorRequest Unit Unit Unit Unit :=
  { project := "p", stack := "s", app := "a", workload := (),
    devModuleConfig := (), platformModuleConfig := (), runtimeConfig := none }

/-- Claim C10: in the earlier variant, every successful assembly has a nil
runtime config — the decoded value of a present runtime-config blob can
never reach the result, because the decode destination is the nil pointer
`rc`, passed by value. -/
theorem claim_C10_runtime_config_never_stored {ε W D P RC : Type}
    (cs : Old.Codecs ε W D P RC) (r : Old.ProtoGeneratorRequest)
    (gr : Old.GeneratorRequest W D P RC)
    (h : Old.NewGeneratorRequest cs r = .ok gr) :
    gr.runtimeConfig = none := by
  unfold Old.NewGeneratorRequest at h
  obtain ⟨w, hw, h⟩ := except_bind_ok h
  obtain ⟨dc, hdc, h⟩ := except_bind_ok h
  obtain ⟨pc, hpc, h⟩ := except_bind_ok h
  obtain ⟨rc, hrc, h⟩ := except_bind_ok h
  rw [old_finishRequest_ok_inv h]
  exact Old.decodeRuntimeConfig_ok hrc

/-- Claim C10 witness: a request with a present, well-formed runtime-config
blob assembles successfully and the assembled runtime config is nil. -/
theorem claim_C10_witness :
    Old.NewGeneratorRequest csOldUnit reqOldRuntime = .ok grOldRuntime ∧
    grOldRuntime.runtimeConfig = none :=
  ⟨rfl, claim_C10_runtime_config_never_stored csOldUnit reqOldRuntime
    grOldRuntime rfl⟩

theorem finishRequest_error_shape {ε W D P C S : Type} {cs : Codecs ε W D P C S}
    {result : GeneratorRequest W D P C S} {err : NGRError ε}
    (h : finishRequest cs result = .error err) :
    ∃ e, err = .marshalRequest e ∧ cs.marshalRequest result = .error e := by
  unfold finishRequest at h
  cases hm : cs.marshalRequest result with
  | error e => rw [hm] at h; exact ⟨e, (Except.error.inj h).symm, rfl⟩
  | ok out => rw [hm] at h; cases h

theorem except_bind_error {ε α β : Type} {x : Except ε α} {f : α → Except ε β}
    {e : ε} (h : x.bind f = .error e) :
    x = .error e ∨ ∃ a, x = .ok a ∧ f a = .error e := by
  cases x with
  | error e2 =>
    left
    simpa using h
  | ok a => exact Or.inr ⟨a, rfl, h⟩

/-- With an absent workload blob, any error of `NewGeneratorRequest` comes
from one of the four later layers or from the diagnostic marshal — never
from the workload layer. -/
theorem NGR_workload_absent_error_shape {ε W D P C S : Type}
    {cs : Codecs ε W D P C S} {r : ProtoGeneratorRequest} {err : NGRError ε}
    (hnone : r.workload = none)
    (h : NewGeneratorRequest cs (some r) = .error err) :
    (∃ e, err = .unmarshalDevConfig e) ∨ (∃ e, err = .unmarshalPlatformConfig e) ∨
    (∃ e, err = .unmarshalContext e) ∨ (∃ e, err = .unmarshalSecretStore e) ∨
    (∃ e, err = .marshalRequest e) := by
  simp only [NewGeneratorRequest, hnone, decodeLayer_none, except_ok_bind] at h
  rcases except_bind_error h with hdc | ⟨dc, hdc, h⟩
  · obtain ⟨b, e0, -, -, hE⟩ := decodeLayer_error_shape hdc
    exact Or.inl ⟨e0, hE⟩
  rcases except_bind_error h with hpc | ⟨pc, hpc, h⟩
  · obtain ⟨b, e0, -, -, hE⟩ := decodeLayer_error_shape hpc
    exact Or.inr (Or.inl ⟨e0, hE⟩)
  rcases except_bind_error h with hcx | ⟨cx, hcx, h⟩
  · obtain ⟨b, e0, -, -, hE⟩ := decodeLayer_error_shape hcx
    exact Or.inr (Or.inr (Or.inl ⟨e0, hE⟩))
  rcases except_bind_error h with hss | ⟨ss, hss, h⟩
  · obtain ⟨b, e0, -, -, hE⟩ := decodeLayer_error_shape hss
    exact Or.inr (Or.inr (Or.inr (Or.inl ⟨e0, hE⟩)))
  obtain ⟨e0, hE, -⟩ := finishRequest_error_shape h
  exact Or.inr (Or.inr (Or.inr (Or.inr ⟨e0, hE⟩)))

/-- Claim C2: the two variants differ exactly as described.  In the earlier
variant an absent workload blob is rejected with the required-field error.
In the current variant an absent workload blob never consults the workload
decoder (replacing the decoder does not change the outcome), every
successful assembly carries the zero value of the workload type, and the
call never fails with the workload-layer decode error. -/
theorem claim_C2_workload_required_vs_optional
    {ε W D P RC ε' W' D' P' C' S' : Type} :
    (∀ (cs : Old.Codecs ε W D P RC) (r : Old.ProtoGeneratorRequest),
        r.workload = none → Old.NewGeneratorRequest cs r = .error .workloadNil) ∧
    (∀ (cs : Codecs ε' W' D' P' C' S') (dec2 : Bytes → Except ε' W')
        (r : ProtoGeneratorRequest), r.workload = none →
        NewGeneratorRequest { cs with decWorkload := dec2 } (some r) =
          NewGeneratorRequest cs (some r)) ∧
    (∀ (cs : Codecs ε' W' D' P' C' S') (r : ProtoGeneratorRequest)
        (gr : GeneratorRequest W' D' P' C' S'), r.workload = none →
        NewGeneratorRequest cs (some r) = .ok gr → gr.workload = cs.w0) ∧
    (∀ (cs : Codecs ε' W' D' P' C' S') (r : ProtoGeneratorRequest) (e : ε'),
        r.workload = none →
        NewGeneratorRequest cs (some r) ≠ .error (.unmarshalWorkload e)) := by
  refine ⟨?_, ?_, ?_, ?_⟩
  · intro cs r h
    simp [Old.NewGeneratorRequest, Old.decodeWorkload, h]
  · intro cs dec2 r hw
    cases r with
    | mk p s a wl dcb pcb cxb ssb =>
      have h2 : wl = none := hw
      subst h2
      rfl
  · intro cs r gr hw hok
    simp only [NewGeneratorRequest, hw, decodeLayer_none, except_ok_bind] at hok
    obtain ⟨dc, -, hok⟩ := except_bind_ok hok
    obtain ⟨pc, -, hok⟩ := except_bind_ok hok
    obtain ⟨cx, -, hok⟩ := except_bind_ok hok
    obtain ⟨ss, -, hok⟩ := except_bind_ok hok
    rw [finishRequest_ok_inv hok]
  · intro cs r e hw hcontra
    rcases NGR_workload_absent_error_shape hw hcontra with
      ⟨e0, hE⟩ | ⟨e0, hE⟩ | ⟨e0, hE⟩ | ⟨e0, hE⟩ | ⟨e0, hE⟩ <;> simp at hE

/-- An earlier-variant wire request whose workload blob is absent. -/
def reqOldNoWorkload : Old.ProtoGeneratorRequest :=
  { project := "p", stack := "s", app := "a", workload := none,
    devModuleConfig := none, platformModuleConfig := none,
    runtimeConfig := none }

/-- Claim C2 witness: on concrete absent-workload requests, the earlier
variant rejects, the current variant ignores the workload decoder, and the
assembled workload is the zero value. -/
theorem claim_C2_witness :
    Old.NewGeneratorRequest csOldUnit reqOldNoWorkload = .error .workloadNil ∧
    NewGeneratorRequest { csUnit with decWorkload := fun _ => .error () }
        (some reqAllAbsent) = NewGeneratorRequest csUnit (some reqAllAbsent) ∧
    grZero.workload = csUnit.w0 :=
  ⟨(@claim_C2_workload_required_vs_optional
      Unit Unit Unit Unit Unit Unit Unit Unit Unit Unit Unit).1
     csOldUnit reqOldNoWorkload rfl,
   (@claim_C2_workload_required_vs_optional
      Unit Unit Unit Unit Unit Unit Unit Unit Unit Unit Unit).2.1
     csUnit (fun _ => .error ()) reqAllAbsent rfl,
   (@claim_C2_workload_required_vs_optional
      Unit Unit Unit Unit Unit Unit Unit Unit Unit Unit Unit).2.2.1
     csUnit reqAllAbsent grZero rfl rfl⟩

/-- A module result with two resources, in order, and no patcher. -/
def respTwo : GeneratorResponse Nat Unit :=
  { resources := [5, 7], patcher := none }

/-- A module whose generation function returns `respTwo`. -/
def fTwo : FrameworkModuleWrapper Unit Unit Unit Unit Unit Unit Nat Unit :=
  { Module := fun _ => .ok (some respTwo) }

/-- Claim C5: when the request assembles, the module returns a result, and
every resource descriptor encodes successfully (as does the patcher when
present), `Generate` returns a wire response with exactly as many encoded
entries as there were descriptors, the entry at each position being the
independent encoding of the descriptor at that same position. -/
theorem claim_C5_resources_encoded_in_order {ε μ W D P C S R Pa : Type}
    (f : FrameworkModuleWrapper μ W D P C S R Pa)
    (cs : Codecs ε W D P C S) (rcs : RespCodecs ε R Pa)
    (req : Option ProtoGeneratorRequest) (gr : GeneratorRequest W D P C S)
    (resp : GeneratorResponse R Pa)
    (h1 : NewGeneratorRequest cs req = .ok gr)
    (h2 : f.Module gr = .ok (some resp))
    (h3 : ∀ r ∈ resp.resources, ∃ b, rcs.encResource r = .ok b)
    (h4 : ∀ p, resp.patcher = some p → ∃ b, rcs.encPatcher p = .ok b) :
    ∃ wresp, f.Generate cs rcs req = .ok wresp ∧
      wresp.resources.length = resp.resources.length ∧
      ∀ i (hi : i < resp.resources.length) (hi2 : i < wresp.resources.length),
        rcs.encResource (resp.resources.get ⟨i, hi⟩) =
          .ok (wresp.resources.get ⟨i, hi2⟩) := by
  obtain ⟨bs, hbs⟩ := marshalResources_ok_of_all_ok (μ := μ) h3
  obtain ⟨hlen, hpt⟩ := marshalResources_spec hbs
  cases hpa : resp.patcher with
  | none =>
    refine ⟨{ resources := bs, patcher := none }, ?_, hlen, hpt⟩
    simp [FrameworkModuleWrapper.Generate, h1, h2, hbs, hpa]
  | some p =>
    obtain ⟨pb, hpb⟩ := h4 p hpa
    refine ⟨{ resources := bs, patcher := some pb }, ?_, hlen, hpt⟩
    simp [FrameworkModuleWrapper.Generate, h1, h2, hbs, hpa, hpb]

/-- Claim C5 witness: a module returning the two resources `5` and `7`
yields a wire response of exactly two entries, each the encoding of the
descriptor at its position. -/
theorem claim_C5_witness :
    ∃ wresp, FrameworkModuleWrapper.Generate fTwo csUnit rcsNat
        (some reqAllAbsent) = .ok wresp ∧
      wresp.resources.length = respTwo.resources.length ∧
      ∀ i (hi : i < respTwo.resources.length) (hi2 : i < wresp.resources.length),
        rcsNat.encResource (respTwo.resources.get ⟨i, hi⟩) =
          .ok (wresp.resources.get ⟨i, hi2⟩) :=
  claim_C5_resources_encoded_in_order fTwo csUnit rcsNat (some reqAllAbsent)
    grZero respTwo rfl rfl (fun r _ => ⟨[r], rfl⟩)
    (fun p hp => by simp [respTwo] at hp)

/-- A resource encoder that fails exactly on the descriptor `7`. -/
def rcsNatFailSeven : RespCodecs Unit Nat Unit :=
  { encResource := fun n => if n = 7 then .error () else .ok [n]
    encPatcher := fun _ => .ok [9] }

/-- A response codec whose patcher encoding fails. -/
def rcsNatPatchFail : RespCodecs Unit Nat Unit :=
  { encResource := fun n => .ok [n], encPatcher := fun _ => .error () }

/-- A module result with one resource and a present patcher. -/
def respPatch : GeneratorResponse Nat Unit :=
  { resources := [5], patcher := some () }

/-- A module whose generation function returns `respPatch`. -/
def fPatch : FrameworkModuleWrapper Unit Unit Unit Unit Unit Unit Nat Unit :=
  { Module := fun _ => .ok (some respPatch) }

/-- Claim C6: if any resource descriptor fails to encode, `Generate`
returns an error; if all resources encode but a present patcher fails to
encode, `Generate` returns the patcher-encoding error; and an erroring
call returns no wire response at all — no partial resource list can reach
the caller. -/
theorem claim_C6_encode_failure_aborts {ε μ W D P C S R Pa : Type}
    (f : FrameworkModuleWrapper μ W D P C S R Pa)
    (cs : Codecs ε W D P C S) (rcs : RespCodecs ε R Pa)
    (req : Option ProtoGeneratorRequest) (gr : GeneratorRequest W D P C S)
    (resp : GeneratorResponse R Pa)
    (h1 : NewGeneratorRequest cs req = .ok gr)
    (h2 : f.Module gr = .ok (some resp)) :
    ((∃ r ∈ resp.resources, ∃ e, rcs.encResource r = .error e) →
        ∃ e2, f.Generate cs rcs req = .error e2) ∧
    (∀ p e, resp.patcher = some p →
        (∀ r ∈ resp.resources, ∃ b, rcs.encResource r = .ok b) →
        rcs.encPatcher p = .error e →
        f.Generate cs rcs req = .error (.marshalPatcherFailed e)) ∧
    (∀ e2 (wresp : ProtoGeneratorResponse), f.Generate cs rcs req = .error e2 →
        f.Generate cs rcs req ≠ .ok wresp) := by
  refine ⟨?_, ?_, ?_⟩
  · intro hbad
    obtain ⟨e2, he2⟩ := marshalResources_error_of_mem_error (μ := μ) hbad
    exact ⟨e2, by simp [FrameworkModuleWrapper.Generate, h1, h2, he2]⟩
  · intro p e hpa hall hpe
    obtain ⟨bs, hbs⟩ := marshalResources_ok_of_all_ok (μ := μ) hall
    simp [FrameworkModuleWrapper.Generate, h1, h2, hbs, hpa, hpe]
  · intro e2 wresp he hok
    rw [he] at hok
    cases hok

/-- Claim C6 witness: a failing encoding of resource `7` aborts the call
with an error, and a failing patcher encoding (after the resource
succeeded) aborts with the patcher error. -/
theorem claim_C6_witness :
    (∃ e2, FrameworkModuleWrapper.Generate fTwo csUnit rcsNatFailSeven
        (some reqAllAbsent) = .error e2) ∧
    FrameworkModuleWrapper.Generate fPatch csUnit rcsNatPatchFail
        (some reqAllAbsent) = .error (.marshalPatcherFailed ()) :=
  ⟨(claim_C6_encode_failure_aborts fTwo csUnit rcsNatFailSeven
      (some reqAllAbsent) grZero respTwo rfl rfl).1
     ⟨7, by simp [respTwo], (), rfl⟩,
   (claim_C6_encode_failure_aborts fPatch csUnit rcsNatPatchFail
      (some reqAllAbsent) grZero respPatch rfl rfl).2.1
     () () rfl (fun r _ => ⟨[r], rfl⟩) rfl⟩

/-- Claim C7: for each of the five layers independently, a present but
malformed blob for that layer, with all other layers absent, makes the
assembler fail with the error naming exactly that layer and wrapping the
underlying decode error; `Generate` then fails with that propagated error
for every possible module — the generation function is never invoked
(the outcome does not depend on it). -/
theorem claim_C7_malformed_layer_identified {ε μ W D P C S R Pa : Type}
    (cs : Codecs ε W D P C S) (rcs : RespCodecs ε R Pa) :
    (∀ p s a b e, cs.decWorkload b = .error e →
        NewGeneratorRequest cs (some ⟨p, s, a, some b, none, none, none, none⟩) =
          .error (.unmarshalWorkload e) ∧
        ∀ f : FrameworkModuleWrapper μ W D P C S R Pa,
          f.Generate cs rcs (some ⟨p, s, a, some b, none, none, none, none⟩) =
            .error (.requestError (.unmarshalWorkload e))) ∧
    (∀ p s a b e, cs.decDevConfig b = .error e →
        NewGeneratorRequest cs (some ⟨p, s, a, none, some b, none, none, none⟩) =
          .error (.unmarshalDevConfig e) ∧
        ∀ f : FrameworkModuleWrapper μ W D P C S R Pa,
          f.Generate cs rcs (some ⟨p, s, a, none, some b, none, none, none⟩) =
            .error (.requestError (.unmarshalDevConfig e))) ∧
    (∀ p s a b e, cs.decPlatformConfig b = .error e →
        NewGeneratorRequest cs (some ⟨p, s, a, none, none, some b, none, none⟩) =
          .error (.unmarshalPlatformConfig e) ∧
        ∀ f : FrameworkModuleWrapper μ W D P C S R Pa,
          f.Generate cs rcs (some ⟨p, s, a, none, none, some b, none, none⟩) =
            .error (.requestError (.unmarshalPlatformConfig e))) ∧
    (∀ p s a b e, cs.decContext b = .error e →
        NewGeneratorRequest cs (some ⟨p, s, a, none, none, none, some b, none⟩) =
          .error (.unmarshalContext e) ∧
        ∀ f : FrameworkModuleWrapper μ W D P C S R Pa,
          f.Generate cs rcs (some ⟨p, s, a, none, none, none, some b, none⟩) =
            .error (.requestError (.unmarshalContext e))) ∧
    (∀ p s a b e, cs.decSecretStore b = .error e →
        NewGeneratorRequest cs (some ⟨p, s, a, none, none, none, none, some b⟩) =
          .error (.unmarshalSecretStore e) ∧
        ∀ f : FrameworkModuleWrapper μ W D P C S R Pa,
          f.Generate cs rcs (some ⟨p, s, a, none, none, none, none, some b⟩) =
            .error (.requestError (.unmarshalSecretStore e))) := by
  refine ⟨?_, ?_, ?_, ?_, ?_⟩
  · intro p s a b e h
    have hn : NewGeneratorRequest cs
        (some ⟨p, s, a, some b, none, none, none, none⟩) =
        .error (.unmarshalWorkload e) := by
      simp [NewGeneratorRequest, decodeLayer, h]
    exact ⟨hn, fun f => by simp [FrameworkModuleWrapper.Generate, hn]⟩
  · intro p s a b e h
    have hn : NewGeneratorRequest cs
        (some ⟨p, s, a, none, some b, none, none, none⟩) =
        .error (.unmarshalDevConfig e) := by
      simp [NewGeneratorRequest, decodeLayer, h]
    exact ⟨hn, fun f => by simp [FrameworkModuleWrapper.Generate, hn]⟩
  · intro p s a b e h
    have hn : NewGeneratorRequest cs
        (some ⟨p, s, a, none, none, some b, none, none⟩) =
        .error (.unmarshalPlatformConfig e) := by
      simp [NewGeneratorRequest, decodeLayer, h]
    exact ⟨hn, fun f => by simp [FrameworkModuleWrapper.Generate, hn]⟩
  · intro p s a b e h
    have hn : NewGeneratorRequest cs
        (some ⟨p, s, a, none, none, none, some b, none⟩) =
        .error (.unmarshalContext e) := by
      simp [NewGeneratorRequest, decodeLayer, h]
    exact ⟨hn, fun f => by simp [FrameworkModuleWrapper.Generate, hn]⟩
  · intro p s a b e h
    have hn : NewGeneratorRequest cs
        (some ⟨p, s, a, none, none, none, none, some b⟩) =
        .error (.unmarshalSecretStore e) := by
      simp [NewGeneratorRequest, decodeLayer, h]
    exact ⟨hn, fun f => by simp [FrameworkModuleWrapper.Generate, hn]⟩

/-- Claim C7 witness: under the codec whose decoders all fail, each layer
presented alone produces the error naming exactly that layer. -/
theorem claim_C7_witness :
    NewGeneratorRequest csUnitDecFail
        (some ⟨"p", "s", "a", some [1], none, none, none, none⟩) =
      .error (.unmarshalWorkload ()) ∧
    NewGeneratorRequest csUnitDecFail
        (some ⟨"p", "s", "a", none, some [1], none, none, none⟩) =
      .error (.unmarshalDevConfig ()) ∧
    NewGeneratorRequest csUnitDecFail
        (some ⟨"p", "s", "a", none, none, some [1], none, none⟩) =
      .error (.unmarshalPlatformConfig ()) ∧
    NewGeneratorRequest csUnitDecFail
        (some ⟨"p", "s", "a", none, none, none, some [1], none⟩) =
      .error (.unmarshalContext ()) ∧
    NewGeneratorRequest csUnitDecFail
        (some ⟨"p", "s", "a", none, none, none, none, some [1]⟩) =
      .error (.unmarshalSecretStore ()) :=
  ⟨((@claim_C7_malformed_layer_identified
       Unit Unit Unit Unit Unit Unit Unit Nat Unit
       csUnitDecFail rcsNat).1 "p" "s" "a" [1] () rfl).1,
   ((@claim_C7_malformed_layer_identified
       Unit Unit Unit Unit Unit Unit Unit Nat Unit
       csUnitDecFail rcsNat).2.1 "p" "s" "a" [1] () rfl).1,
   ((@claim_C7_malformed_layer_identified
       Unit Unit Unit Unit Unit Unit Unit Nat Unit
       csUnitDecFail rcsNat).2.2.1 "p" "s" "a" [1] () rfl).1,
   ((@claim_C7_malformed_layer_identified
       Unit Unit Unit Unit Unit Unit Unit Nat Unit
       csUnitDecFail rcsNat).2.2.2.1 "p" "s" "a" [1] () rfl).1,
   ((@claim_C7_malformed_layer_identified
       Unit Unit Unit Unit Unit Unit Unit Nat Unit
       csUnitDecFail rcsNat).2.2.2.2 "p" "s" "a" [1] () rfl).1⟩

/-- Claim C8: layer decoding is first-failure-wins in the fixed order
workload, devConfig, platformConfig, context, secretStore.  Whenever a
layer is the first in that order whose blob is present and malformed, the
assembler reports exactly that layer, whatever the later blobs and
decoders do (in particular when several layers are malformed) — errors
are never aggregated and no later layer is reported. -/
theorem claim_C8_first_failure_wins {ε W D P C S : Type} :
    (∀ (cs : Codecs ε W D P C S) (r : ProtoGeneratorRequest) (b : Bytes) (e : ε),
        r.workload = some b → cs.decWorkload b = .error e →
        NewGeneratorRequest cs (some r) = .error (.unmarshalWorkload e)) ∧
    (∀ (cs : Codecs ε W D P C S) (r : ProtoGeneratorRequest) (b : Bytes) (e : ε),
        layerOk cs.decWorkload r.workload →
        r.devConfig = some b → cs.decDevConfig b = .error e →
        NewGeneratorRequest cs (some r) = .error (.unmarshalDevConfig e)) ∧
    (∀ (cs : Codecs ε W D P C S) (r : ProtoGeneratorRequest) (b : Bytes) (e : ε),
        layerOk cs.decWorkload r.workload → layerOk cs.decDevConfig r.devConfig →
        r.platformConfig = some b → cs.decPlatformConfig b = .error e →
        NewGeneratorRequest cs (some r) = .error (.unmarshalPlatformConfig e)) ∧
    (∀ (cs : Codecs ε W D P C S) (r : ProtoGeneratorRequest) (b : Bytes) (e : ε),
        layerOk cs.decWorkload r.workload → layerOk cs.decDevConfig r.devConfig →
        layerOk cs.decPlatformConfig r.platformConfig →
        r.context = some b → cs.decContext b = .error e →
        NewGeneratorRequest cs (some r) = .error (.unmarshalContext e)) ∧
    (∀ (cs : Codecs ε W D P C S) (r : ProtoGeneratorRequest) (b : Bytes) (e : ε),
        layerOk cs.decWorkload r.workload → layerOk cs.decDevConfig r.devConfig →
        layerOk cs.decPlatformConfig r.platformConfig →
        layerOk cs.decContext r.context →
        r.secretStore = some b → cs.decSecretStore b = .error e →
        NewGeneratorRequest cs (some r) = .error (.unmarshalSecretStore e)) := by
  refine ⟨?_, ?_, ?_, ?_, ?_⟩
  · intro cs r b e hb hd
    have hde : decodeLayer cs.decWorkload cs.w0 NGRError.unmarshalWorkload
        r.workload = .error (.unmarshalWorkload e) := by
      rw [hb]; exact decodeLayer_error hd
    simp [NewGeneratorRequest, hde]
  · intro cs r b e h1 hb hd
    obtain ⟨w, hw⟩ := decodeLayer_ok_of_layerOk cs.w0 NGRError.unmarshalWorkload h1
    have hde : decodeLayer cs.decDevConfig cs.d0 NGRError.unmarshalDevConfig
        r.devConfig = .error (.unmarshalDevConfig e) := by
      rw [hb]; exact decodeLayer_error hd
    simp [NewGeneratorRequest, hw, hde]
  · intro cs r b e h1 h2 hb hd
    obtain ⟨w, hw⟩ := decodeLayer_ok_of_layerOk cs.w0 NGRError.unmarshalWorkload h1
    obtain ⟨dc, hdc⟩ := decodeLayer_ok_of_layerOk cs.d0 NGRError.unmarshalDevConfig h2
    have hde : decodeLayer cs.decPlatformConfig cs.p0 NGRError.unmarshalPlatformConfig
        r.platformConfig = .error (.unmarshalPlatformConfig e) := by
      rw [hb]; exact decodeLayer_error hd
    simp [NewGeneratorRequest, hw, hdc, hde]
  · intro cs r b e h1 h2 h3 hb hd
    obtain ⟨w, hw⟩ := decodeLayer_ok_of_layerOk cs.w0 NGRError.unmarshalWorkload h1
    obtain ⟨dc, hdc⟩ := decodeLayer_ok_of_layerOk cs.d0 NGRError.unmarshalDevConfig h2
    obtain ⟨pc, hpc⟩ := decodeLayer_ok_of_layerOk cs.p0 NGRError.unmarshalPlatformConfig h3
    have hde : decodeLayer cs.decContext cs.c0 NGRError.unmarshalContext
        r.context = .error (.unmarshalContext e) := by
      rw [hb]; exact decodeLayer_error hd
    simp [NewGeneratorRequest, hw, hdc, hpc, hde]
  · intro cs r b e h1 h2 h3 h4 hb hd
    obtain ⟨w, hw⟩ := decodeLayer_ok_of_layerOk cs.w0 NGRError.unmarshalWorkload h1
    obtain ⟨dc, hdc⟩ := decodeLayer_ok_of_layerOk cs.d0 NGRError.unmarshalDevConfig h2
    obtain ⟨pc, hpc⟩ := decodeLayer_ok_of_layerOk cs.p0 NGRError.unmarshalPlatformConfig h3
    obtain ⟨cx, hcx⟩ := decodeLayer_ok_of_layerOk cs.c0 NGRError.unmarshalContext h4
    have hde : decodeLayer cs.decSecretStore cs.s0 NGRError.unmarshalSecretStore
        r.secretStore = .error (.unmarshalSecretStore e) := by
      rw [hb]; exact decodeLayer_error hd
    simp [NewGeneratorRequest, hw, hdc, hpc, hcx, hde]

/-- A codec whose workload decoder succeeds but whose devConfig and
secretStore decoders fail. -/
def csUnitLaterFail : Codecs Unit Unit Unit Unit Unit Unit :=
  { csUnit with
    decDevConfig := fun _ => .error ()
    decSecretStore := fun _ => .error () }

/-- A wire request in which two layers (devConfig and secretStore) carry
malformed blobs. -/
def reqTwoBad : ProtoGeneratorRequest :=
  { project := "p", stack := "s", app := "a", workload := none,
    devConfig := some [1], platformConfig := none, context := none,
    secretStore := some [2] }

/-- Claim C8 witness: with both the devConfig and the secretStore blobs
malformed, only the devConfig layer — the first in decode order — is
reported. -/
theorem claim_C8_witness :
    NewGeneratorRequest csUnitLaterFail (some reqTwoBad) =
      .error (.unmarshalDevConfig ()) :=
  (@claim_C8_first_failure_wins Unit Unit Unit Unit Unit Unit).2.1
    csUnitLaterFail reqTwoBad [1] () (fun _ h => nomatch h) rfl rfl
